import Mathlib

/-!
Verification of the AIEnergyFlow energy-monitoring server core.

This file gives a shallow embedding, in Lean 4, of the alert detection and
lifecycle core of the repository:

* shared/schema.ts            - EnergyMetric, Alert records
* server/ai-service.ts        - AIAnomalyDetectionService (rule-based detector,
                                AI pattern analyzer with fail-closed handling)
* server/alert-detection-engine.ts - AlertDetectionEngine (four detection
                                passes, dedup + prioritize merge step)
* server/notification-service.ts - NotificationService channel selection
* server/storage.ts           - MemStorage alert map, EnergyDataSimulator

Modelling conventions:
* JavaScript numbers are embedded as rationals (Rat); machine floating point
  is not modelled.  Division by zero yields 0 in Rat where JS would produce
  an Infinity or NaN; every place this could matter is noted.
* Date values are embedded as natural numbers (milliseconds since epoch).
* Asynchronous calls that can reject (the OpenAI transport, the awaited
  analyzer inside the engine) are embedded as Except String values passed in
  as parameters; a total Lean function cannot throw, so catch blocks around
  total code are noted in comments.
* JS Map objects are embedded as association lists in insertion order,
  mirroring Map.get and Map.set semantics.
* JS Array.prototype.sort is stable (ECMA-262); it is embedded as
  List.insertionSort with the non-strict comparator preorder, which is the
  unique stable sort for that preorder.
-/

namespace AIEnergyFlow

/-- Milliseconds since epoch, the embedding of a JS Date. -/
abbrev Time := Nat

/-! ## shared/schema.ts -/

/-- A point-in-time energy reading (table energy_metrics in shared/schema.ts). -/
structure EnergyMetric where
  id : String
  timestamp : Time
  consumption : ℚ
  generation : ℚ
  storage : ℚ
  gridExport : ℚ
  solarEfficiency : ℚ
  batteryHealth : ℚ
deriving DecidableEq, Repr

/-- An energy reading before the store assigns id and timestamp
(insertEnergyMetricSchema in shared/schema.ts). -/
structure InsertEnergyMetric where
  consumption : ℚ
  generation : ℚ
  storage : ℚ
  gridExport : ℚ
  solarEfficiency : ℚ
  batteryHealth : ℚ
deriving DecidableEq, Repr

/-- An alert record (table alerts in shared/schema.ts).  The legacy alerts
table has only a dismissed flag; there is no status column. -/
structure Alert where
  id : String
  title : String
  description : String
  type : String
  timestamp : Time
  dismissed : Bool
  dismissedAt : Option Time
  anomalyId : Option String
deriving DecidableEq, Repr

/-- Embedding of Number.prototype.toFixed(1) on the rational embedding of a JS
number: round to one decimal and render.  Faithful for the nonnegative values
that reach it in this code base. -/
def toFixed1 (q : ℚ) : String :=
  let n : Int := round (q * 10)
  toString (n / 10) ++ "." ++ toString (n % 10).natAbs

/-! ## server/ai-service.ts -/

/-- Detector-local severity scale of AnomalyAnalysisResult in ai-service.ts. -/
inductive AISeverity where
  | low
  | medium
  | high
  | critical
deriving DecidableEq, Repr

/-- AnomalyAnalysisResult in ai-service.ts.  The optional fields are absent
(undefined) in the no-anomaly result. -/
structure AnomalyAnalysisResult where
  isAnomaly : Bool
  score : ℚ
  type : Option String
  severity : Option AISeverity
  description : Option String
  affectedComponent : Option String
deriving DecidableEq, Repr

/-- The no-anomaly result literal, written as isAnomaly false and score 0 in
ai-service.ts; the remaining fields are absent. -/
def noAnomaly : AnomalyAnalysisResult :=
  { isAnomaly := false, score := 0, type := none, severity := none,
    description := none, affectedComponent := none }

/-- AIAnomalyDetectionService.detectRuleBasedAnomalies (ai-service.ts,
lines 49 to 96): fixed ordered threshold checks over one reading, first match
wins.  The description strings follow the source template literals, with
normalRanges constants inlined. -/
def detectRuleBasedAnomalies (metric : EnergyMetric) : AnomalyAnalysisResult :=
  if metric.consumption > 300 then
    { isAnomaly := true, score := 0.95, type := some "consumption",
      severity := some AISeverity.critical,
      description := some ("Extreme consumption spike: "
        ++ toFixed1 metric.consumption ++ " kW (normal range: 80-250 kW)"),
      affectedComponent := some "grid_load" }
  else if metric.storage < 5 then
    { isAnomaly := true, score := 0.90, type := some "storage",
      severity := some AISeverity.critical,
      description := some ("Critical battery level: "
        ++ toFixed1 metric.storage ++ "% (minimum safe level: 15%)"),
      affectedComponent := some "battery_system" }
  else if metric.solarEfficiency < 50 then
    { isAnomaly := true, score := 0.85, type := some "generation",
      severity := some AISeverity.high,
      description := some ("Solar panel efficiency critically low: "
        ++ toFixed1 metric.solarEfficiency ++ "% (normal range: 75-98%)"),
      affectedComponent := some "solar_panels" }
  else if metric.batteryHealth < 85 then
    { isAnomaly := true, score := 0.80, type := some "device_fault",
      severity := some AISeverity.medium,
      description := some ("Battery health degraded: "
        ++ toFixed1 metric.batteryHealth ++ "% (normal range: 90-100%)"),
      affectedComponent := some "battery_system" }
  else
    noAnomaly

/-- The JSON object parsed from the model response inside performAIAnalysis;
every field may be missing. -/
structure RawAIResponse where
  isAnomaly : Option Bool
  score : Option ℚ
  type : Option String
  severity : Option AISeverity
  description : Option String
  affectedComponent : Option String
deriving DecidableEq, Repr

/-- AIAnomalyDetectionService.performAIAnalysis (ai-service.ts, lines 98 to
126), given the outcome of the OpenAI transport call: on success the parsed
fields are defaulted (the JS or-defaults) and score is clamped to the unit
interval; a transport failure is re-raised to the caller.  The prompt
construction feeds only the external model and is not modelled. -/
def performAIAnalysis (response : Except String RawAIResponse) :
    Except String AnomalyAnalysisResult :=
  response.map fun result =>
    { isAnomaly := result.isAnomaly.getD false,
      score := min 1 (max 0 (result.score.getD 0)),
      type := result.type,
      severity := result.severity,
      description := result.description,
      affectedComponent := result.affectedComponent }

/-- AIAnomalyDetectionService.analyzeEnergyPattern (ai-service.ts, lines 26 to
47): empty input short-circuits to the no-anomaly result; otherwise the latest
reading runs through the rule-based detector, and only if that finds nothing
is the AI analysis consulted, with its failure caught and turned into the
no-anomaly result (fail closed). -/
def analyzeEnergyPattern (response : Except String RawAIResponse)
    (metrics : List EnergyMetric) : AnomalyAnalysisResult :=
  match metrics.getLast? with
  | none => noAnomaly
  | some latest =>
    let ruleBasedAnomaly := detectRuleBasedAnomalies latest
    if ruleBasedAnomaly.isAnomaly then
      ruleBasedAnomaly
    else
      match performAIAnalysis response with
      | Except.ok r => r
      | Except.error _ => noAnomaly

/-! ## shared/alert-schema.ts -/

/-- AlertSeverity in shared/alert-schema.ts. -/
inductive AlertSeverity where
  | info
  | warning
  | critical
deriving DecidableEq, Repr

/-- AlertType in shared/alert-schema.ts. -/
inductive AlertType where
  | consumption
  | generation
  | storage
  | device_fault
  | system_health
  | anomaly
deriving DecidableEq, Repr

/-- A sensor reading (table sensor_data in shared/alert-schema.ts).  The
engine threads sensor data through but no detection pass reads it. -/
structure SensorData where
  id : String
  sensorId : String
  deviceId : String
  location : String
  sensorType : String
  value : ℚ
  unit : String
  timestamp : Time
  quality : String
deriving DecidableEq, Repr

/-- Trend summary returned by AlertDetectionEngine.analyzeTrend. -/
structure TrendResult where
  isIncreasing : Bool
  isDecreasing : Bool
  rate : ℚ
deriving DecidableEq, Repr

/-- A value in the free-form metadata bag attached to a detection result
(Record of string to any in the source). -/
inductive MetaValue where
  | num (q : ℚ)
  | str (s : String)
  | optStr (s : Option String)
  | metricOpt (m : Option EnergyMetric)
  | trendVal (t : TrendResult)
  | strList (l : List String)
deriving DecidableEq, Repr

/-- AlertDetectionResult in shared/alert-schema.ts. -/
structure AlertDetectionResult where
  isAlert : Bool
  severity : AlertSeverity
  type : AlertType
  confidence : ℚ
  description : String
  affectedComponent : Option String
  metadata : List (String × MetaValue)
deriving DecidableEq, Repr

/-! ## server/alert-detection-engine.ts -/

/-- Rule category of an AlertRule. -/
inductive RuleType where
  | threshold
  | patternRule
  | ai
  | statistical
deriving DecidableEq, Repr

/-- Comparison operator of a RuleCondition.  The operator switch in
evaluateCondition handles the six numeric comparisons; containsOp and
patternOp fall into its default branch and evaluate to false. -/
inductive RuleOp where
  | gt
  | lt
  | ge
  | le
  | eq
  | ne
  | containsOp
  | patternOp
deriving DecidableEq, Repr

/-- RuleCondition in alert-detection-engine.ts.  The conditions the engine
ever builds carry numeric values, so value is embedded as a rational. -/
structure RuleCondition where
  metric : String
  operator : RuleOp
  value : ℚ
  duration : Option ℚ
  confidence : Option ℚ
deriving DecidableEq, Repr

/-- Action category of a RuleAction. -/
inductive RuleActionType where
  | create_alert
  | send_notification
  | escalate
  | log
deriving DecidableEq, Repr

/-- RuleAction in alert-detection-engine.ts. -/
structure RuleAction where
  type : RuleActionType
  config : List (String × MetaValue)
deriving DecidableEq, Repr

/-- AlertRule in alert-detection-engine.ts. -/
structure AlertRule where
  id : String
  name : String
  type : RuleType
  severity : AlertSeverity
  conditions : List RuleCondition
  actions : List RuleAction
  enabled : Bool
deriving DecidableEq, Repr

/-- The severity mapping in AlertDetectionEngine.mapAISeverityToAlertSeverity;
the default branch of the source switch returns warning, which is
unreachable over the enumerated AISeverity. -/
def mapAISeverityToAlertSeverity : AISeverity → AlertSeverity
  | AISeverity.critical => AlertSeverity.critical
  | AISeverity.high => AlertSeverity.critical
  | AISeverity.medium => AlertSeverity.warning
  | AISeverity.low => AlertSeverity.info

/-- AlertDetectionEngine.mapAITypeToAlertType: a string switch with default
branch anomaly. -/
def mapAITypeToAlertType (aiType : String) : AlertType :=
  if aiType = "consumption" then AlertType.consumption
  else if aiType = "generation" then AlertType.generation
  else if aiType = "storage" then AlertType.storage
  else if aiType = "device_fault" then AlertType.device_fault
  else AlertType.anomaly

/-- Embedding of String.prototype.includes: the pattern occurs as a
contiguous substring. -/
def strContains (s pat : String) : Bool :=
  decide (pat.toList <:+: s.toList)

/-- AlertDetectionEngine.inferTypeFromRule: keyword search over the
lower-cased rule name. -/
def inferTypeFromRule (rule : AlertRule) : AlertType :=
  let n := rule.name.toLower
  if strContains n "consumption" then AlertType.consumption
  else if strContains n "battery" || strContains n "storage" then AlertType.storage
  else if strContains n "solar" || strContains n "generation" then AlertType.generation
  else if strContains n "device" || strContains n "fault" then AlertType.device_fault
  else AlertType.system_health

/-- AlertDetectionEngine.inferComponentFromRule. -/
def inferComponentFromRule (rule : AlertRule) : String :=
  let n := rule.name.toLower
  if strContains n "consumption" then "grid_load"
  else if strContains n "battery" then "battery_system"
  else if strContains n "solar" then "solar_panels"
  else "system"

/-- AlertDetectionEngine.performAIDetection (alert-detection-engine.ts, lines
66 to 111), given the outcome of awaiting the analyzer: a raised error is
caught, logged and turned into no results; a returned anomaly is mapped into
one detection result; a returned non-anomaly yields no results.  In the
running system the Except argument is the outcome of
aiService.analyzeEnergyPattern on the same metrics window. -/
def performAIDetection
    (analyzerOutcome : Except String AnomalyAnalysisResult) :
    List AlertDetectionResult :=
  match analyzerOutcome with
  | Except.error _ => []
  | Except.ok aiResult =>
    if aiResult.isAnomaly then
      [{ isAlert := true,
         severity := mapAISeverityToAlertSeverity
           (aiResult.severity.getD AISeverity.medium),
         type := mapAITypeToAlertType (aiResult.type.getD "unknown"),
         confidence := aiResult.score,
         description := aiResult.description.getD "AI detected anomaly",
         affectedComponent := aiResult.affectedComponent,
         metadata := [("aiConfidence", MetaValue.num aiResult.score),
                      ("aiType", MetaValue.optStr aiResult.type),
                      ("detectionMethod", MetaValue.str "ai_analysis")] }]
    else []

/-- AlertDetectionEngine.evaluateCondition: reads a metric of the latest
reading by name (default branch false, also when there is no latest reading)
and applies the operator; the operator switch defaults to false for the
containsOp and patternOp cases. -/
def evaluateCondition (condition : RuleCondition)
    (energyMetrics : List EnergyMetric) (_sensorData : List SensorData) : Bool :=
  match energyMetrics.getLast? with
  | none => false
  | some latest =>
    let fieldValue : Option ℚ :=
      if condition.metric = "consumption" then some latest.consumption
      else if condition.metric = "generation" then some latest.generation
      else if condition.metric = "storage" then some latest.storage
      else if condition.metric = "solarEfficiency" then some latest.solarEfficiency
      else if condition.metric = "batteryHealth" then some latest.batteryHealth
      else none
    match fieldValue with
    | none => false
    | some value =>
      match condition.operator with
      | RuleOp.gt => decide (value > condition.value)
      | RuleOp.lt => decide (value < condition.value)
      | RuleOp.ge => decide (value ≥ condition.value)
      | RuleOp.le => decide (value ≤ condition.value)
      | RuleOp.eq => decide (value = condition.value)
      | RuleOp.ne => decide (value ≠ condition.value)
      | RuleOp.containsOp => false
      | RuleOp.patternOp => false

/-- AlertDetectionEngine.evaluateRule: all conditions must hold
(AND-combined). -/
def evaluateRule (rule : AlertRule) (energyMetrics : List EnergyMetric)
    (sensorData : List SensorData) : Bool :=
  rule.conditions.all fun c => evaluateCondition c energyMetrics sensorData

/-- AlertDetectionEngine.createAlertFromRule. -/
def createAlertFromRule (rule : AlertRule) (energyMetrics : List EnergyMetric)
    (_sensorData : List SensorData) : AlertDetectionResult :=
  { isAlert := true,
    severity := rule.severity,
    type := inferTypeFromRule rule,
    confidence := 0.9,
    description := "Rule triggered: " ++ rule.name,
    affectedComponent := some (inferComponentFromRule rule),
    metadata := [("ruleId", MetaValue.str rule.id),
                 ("ruleName", MetaValue.str rule.name),
                 ("currentValues", MetaValue.metricOpt energyMetrics.getLast?),
                 ("detectionMethod", MetaValue.str "rule_based")] }

/-- AlertDetectionEngine.performRuleDetection (alert-detection-engine.ts,
lines 95 to 111): every enabled rule whose conditions all hold produces one
result.  The per-rule catch in the source guards evaluateRule and
createAlertFromRule, which are total here. -/
def performRuleDetection (rules : List AlertRule)
    (energyMetrics : List EnergyMetric) (sensorData : List SensorData) :
    List AlertDetectionResult :=
  rules.filterMap fun rule =>
    if rule.enabled && evaluateRule rule energyMetrics sensorData then
      some (createAlertFromRule rule energyMetrics sensorData)
    else none

/-- AlertDetectionEngine.performThresholdDetection (alert-detection-engine.ts,
lines 116 to 191): an independent hard-coded check set over the latest
reading; checks are cumulative, each violated threshold appends a result. -/
def performThresholdDetection (energyMetrics : List EnergyMetric)
    (_sensorData : List SensorData) : List AlertDetectionResult :=
  match energyMetrics.getLast? with
  | none => []
  | some latest =>
    (if latest.consumption > 300 then
      [{ isAlert := true, severity := AlertSeverity.critical,
         type := AlertType.consumption, confidence := 0.95,
         description := "Critical consumption spike: "
           ++ toFixed1 latest.consumption ++ " kW (threshold: 300 kW)",
         affectedComponent := some "grid_load",
         metadata := [("currentValue", MetaValue.num latest.consumption),
                      ("threshold", MetaValue.num 300),
                      ("detectionMethod", MetaValue.str "threshold")] }]
     else []) ++
    (if latest.storage < 10 then
      [{ isAlert := true, severity := AlertSeverity.critical,
         type := AlertType.storage, confidence := 0.98,
         description := "Critical battery level: "
           ++ toFixed1 latest.storage ++ "% (minimum: 10%)",
         affectedComponent := some "battery_system",
         metadata := [("currentValue", MetaValue.num latest.storage),
                      ("threshold", MetaValue.num 10),
                      ("detectionMethod", MetaValue.str "threshold")] }]
     else []) ++
    (if latest.solarEfficiency < 50 then
      [{ isAlert := true, severity := AlertSeverity.warning,
         type := AlertType.generation, confidence := 0.85,
         description := "Solar efficiency degraded: "
           ++ toFixed1 latest.solarEfficiency ++ "% (normal: >75%)",
         affectedComponent := some "solar_panels",
         metadata := [("currentValue", MetaValue.num latest.solarEfficiency),
                      ("threshold", MetaValue.num 50),
                      ("detectionMethod", MetaValue.str "threshold")] }]
     else []) ++
    (if latest.batteryHealth < 85 then
      [{ isAlert := true, severity := AlertSeverity.warning,
         type := AlertType.device_fault, confidence := 0.80,
         description := "Battery health degraded: "
           ++ toFixed1 latest.batteryHealth ++ "% (normal: >90%)",
         affectedComponent := some "battery_system",
         metadata := [("currentValue", MetaValue.num latest.batteryHealth),
                      ("threshold", MetaValue.num 85),
                      ("detectionMethod", MetaValue.str "threshold")] }]
     else [])

/-- AlertDetectionEngine.analyzeTrend: first-to-last relative rate over a
series.  In Rat a zero first element makes the rate 0 where JS would give an
infinite or undefined rate; no claim depends on that case. -/
def analyzeTrend (data : List ℚ) : TrendResult :=
  if data.length < 2 then
    { isIncreasing := false, isDecreasing := false, rate := 0 }
  else
    match data.head?, data.getLast? with
    | some first, some last =>
      let rate := (last - first) / first
      { isIncreasing := decide (rate > 0.05),
        isDecreasing := decide (rate < -0.05),
        rate := rate }
    | _, _ => { isIncreasing := false, isDecreasing := false, rate := 0 }

/-- AlertDetectionEngine.performPatternAnalysis (alert-detection-engine.ts,
lines 196 to 236): requires at least 10 readings, then flags a consumption
up-trend with rate above 0.1 and a generation down-trend with rate below
-0.15, each as a warning. -/
def performPatternAnalysis (metrics : List EnergyMetric) :
    List AlertDetectionResult :=
  if metrics.length < 10 then []
  else
    let consumptionTrend := analyzeTrend (metrics.map fun m => m.consumption)
    let generationTrend := analyzeTrend (metrics.map fun m => m.generation)
    (if consumptionTrend.isIncreasing && decide (consumptionTrend.rate > 0.1) then
      [{ isAlert := true, severity := AlertSeverity.warning,
         type := AlertType.consumption, confidence := 0.75,
         description := "Consumption trend increasing: "
           ++ toFixed1 (consumptionTrend.rate * 100) ++ "% per hour",
         affectedComponent := some "grid_load",
         metadata := [("trend", MetaValue.trendVal consumptionTrend),
                      ("detectionMethod", MetaValue.str "pattern_analysis")] }]
     else []) ++
    (if generationTrend.isDecreasing && decide (generationTrend.rate < -0.15) then
      [{ isAlert := true, severity := AlertSeverity.warning,
         type := AlertType.generation, confidence := 0.80,
         description := "Generation dropping: "
           ++ toFixed1 (generationTrend.rate * 100) ++ "% per hour",
         affectedComponent := some "solar_panels",
         metadata := [("trend", MetaValue.trendVal generationTrend),
                      ("detectionMethod", MetaValue.str "pattern_analysis")] }]
     else [])

/-- String form of an AlertType, as the template literal in the dedup key
renders it. -/
def alertTypeStr : AlertType → String
  | AlertType.consumption => "consumption"
  | AlertType.generation => "generation"
  | AlertType.storage => "storage"
  | AlertType.device_fault => "device_fault"
  | AlertType.system_health => "system_health"
  | AlertType.anomaly => "anomaly"

/-- String form of an AlertSeverity, as the dedup key renders it. -/
def alertSeverityStr : AlertSeverity → String
  | AlertSeverity.info => "info"
  | AlertSeverity.warning => "warning"
  | AlertSeverity.critical => "critical"

/-- String form of the optional affected component; a missing component
renders as the string undefined inside the JS template literal. -/
def componentStr : Option String → String
  | none => "undefined"
  | some s => s

/-- The composite dedup key built in deduplicateAndPrioritizeAlerts. -/
def dedupKey (alert : AlertDetectionResult) : String :=
  alertTypeStr alert.type ++ "-" ++ alertSeverityStr alert.severity ++ "-"
    ++ componentStr alert.affectedComponent

/-- The filter with a seen-set closure inside deduplicateAndPrioritizeAlerts:
keep the first occurrence of each key, drop later ones. -/
def dedupeByKey (seen : List String) :
    List AlertDetectionResult → List AlertDetectionResult
  | [] => []
  | alert :: rest =>
    let key := dedupKey alert
    if key ∈ seen then dedupeByKey seen rest
    else alert :: dedupeByKey (key :: seen) rest

/-- The severityOrder table in deduplicateAndPrioritizeAlerts. -/
def severityOrder : AlertSeverity → ℕ
  | AlertSeverity.critical => 3
  | AlertSeverity.warning => 2
  | AlertSeverity.info => 1

/-- The preorder of the descending severity sort: a comes weakly before b when
its severity rank is at least that of b.  The JS comparator subtracts ranks. -/
def sevGE (a b : AlertDetectionResult) : Prop :=
  severityOrder b.severity ≤ severityOrder a.severity

instance : DecidableRel sevGE := fun a b =>
  inferInstanceAs (Decidable (severityOrder b.severity ≤ severityOrder a.severity))

instance : IsTotal AlertDetectionResult sevGE :=
  ⟨fun a b => Nat.le_total (severityOrder b.severity) (severityOrder a.severity)⟩

instance : IsTrans AlertDetectionResult sevGE :=
  ⟨fun _ _ _ hab hbc => Nat.le_trans hbc hab⟩

/-- AlertDetectionEngine.deduplicateAndPrioritizeAlerts
(alert-detection-engine.ts, lines 338 to 353): drop later duplicates of the
composite key, then stable-sort descending by severity rank.  JS sort is
stable, so it is embedded as insertion sort over the rank preorder. -/
def deduplicateAndPrioritizeAlerts (alerts : List AlertDetectionResult) :
    List AlertDetectionResult :=
  List.insertionSort sevGE (dedupeByKey [] alerts)

/-- AlertDetectionEngine.detectAnomalies (alert-detection-engine.ts, lines 41
to 61): concatenate the four passes in order (AI, configured rules, hard
thresholds, trend) and merge.  The analyzer outcome parameter stands for the
awaited AI analyzer call, the one fallible operation of the four passes. -/
def detectAnomalies (analyzerOutcome : Except String AnomalyAnalysisResult)
    (rules : List AlertRule) (energyMetrics : List EnergyMetric)
    (sensorData : List SensorData) : List AlertDetectionResult :=
  deduplicateAndPrioritizeAlerts
    (performAIDetection analyzerOutcome
      ++ performRuleDetection rules energyMetrics sensorData
      ++ performThresholdDetection energyMetrics sensorData
      ++ performPatternAnalysis energyMetrics)

/-- AlertDetectionEngine.initializeDefaultRules: the three built-in rules. -/
def defaultRules : List AlertRule :=
  [{ id := "consumption-spike", name := "Consumption Spike Detection",
     type := RuleType.threshold, severity := AlertSeverity.critical,
     conditions := [{ metric := "consumption", operator := RuleOp.gt,
                      value := 250, duration := none, confidence := none }],
     actions := [{ type := RuleActionType.create_alert, config := [] },
                 { type := RuleActionType.send_notification,
                   config := [("channels", MetaValue.strList ["email", "sms"])] }],
     enabled := true },
   { id := "battery-critical", name := "Battery Critical Level",
     type := RuleType.threshold, severity := AlertSeverity.critical,
     conditions := [{ metric := "storage", operator := RuleOp.lt,
                      value := 15, duration := none, confidence := none }],
     actions := [{ type := RuleActionType.create_alert, config := [] },
                 { type := RuleActionType.escalate,
                   config := [("delay", MetaValue.num 5)] }],
     enabled := true },
   { id := "solar-degradation", name := "Solar Panel Degradation",
     type := RuleType.threshold, severity := AlertSeverity.warning,
     conditions := [{ metric := "solarEfficiency", operator := RuleOp.lt,
                      value := 70, duration := none, confidence := none }],
     actions := [{ type := RuleActionType.create_alert, config := [] }],
     enabled := true }]

/-! ## server/notification-service.ts -/

/-- The channels appended by the severity switch inside
NotificationService.determineNotificationChannels. -/
def severityChannels : AlertSeverity → List String
  | AlertSeverity.critical => ["email", "sms", "push"]
  | AlertSeverity.warning => ["email", "push"]
  | AlertSeverity.info => ["push"]

/-- NotificationService.determineNotificationChannels
(notification-service.ts, lines 52 to 73): dashboard and websocket are pushed
only when present in the requested channels; then the severity switch appends
its channels unconditionally.  Other requested channels are not carried
over. -/
def determineNotificationChannels (severity : AlertSeverity)
    (requestedChannels : List String) : List String :=
  (if "dashboard" ∈ requestedChannels then ["dashboard"] else []) ++
  (if "websocket" ∈ requestedChannels then ["websocket"] else []) ++
  (match severity with
   | AlertSeverity.critical => ["email", "sms", "push"]
   | AlertSeverity.warning => ["email", "push"]
   | AlertSeverity.info => ["push"])

/-! ## server/storage.ts -/

/-- An alert before the store assigns id, timestamp and the dismissal state
(insertAlertSchema in shared/schema.ts). -/
structure InsertAlert where
  title : String
  description : String
  type : String
  anomalyId : Option String
deriving DecidableEq, Repr

/-- The alert store of MemStorage: a JS Map from id to Alert, embedded as an
association list in insertion order. -/
abbrev AlertStore := List (String × Alert)

/-- Map.prototype.get on the alert store. -/
def mapGet (k : String) : AlertStore → Option Alert
  | [] => none
  | (k₂, v) :: rest => if k₂ = k then some v else mapGet k rest

/-- Map.prototype.set on the alert store: replace the binding in place when
the key exists, append otherwise. -/
def mapSet (k : String) (v : Alert) : AlertStore → AlertStore
  | [] => [(k, v)]
  | (k₂, v₂) :: rest =>
    if k₂ = k then (k, v) :: rest else (k₂, v₂) :: mapSet k v rest

/-- MemStorage.addAlert (storage.ts, lines 126 to 138): build the full record
from the insert payload, with dismissed false and dismissedAt null, and set
it under a fresh id.  The random UUID and Date.now are parameters. -/
def addAlert (freshId : String) (now : Time) (alert : InsertAlert)
    (store : AlertStore) : Alert × AlertStore :=
  let alertRecord : Alert :=
    { id := freshId, title := alert.title, description := alert.description,
      type := alert.type, timestamp := now, dismissed := false,
      dismissedAt := none, anomalyId := alert.anomalyId }
  (alertRecord, mapSet freshId alertRecord store)

/-- MemStorage.dismissAlert (storage.ts, lines 146 to 153): look the alert up;
when present, set dismissed and dismissedAt and store it back; when absent, do
nothing.  No error is raised in either case (the return type of the source is
a promise of void that never rejects). -/
def dismissAlert (now : Time) (id : String) (store : AlertStore) : AlertStore :=
  match mapGet id store with
  | none => store
  | some alert =>
    mapSet id { alert with dismissed := true, dismissedAt := some now } store

/-- The updateAlertStatus helper of the alert routes
(alert-detection-engine.ts source file, lines 773 to 787): a mock that logs
the requested transition and returns successfully for every alert id, status,
user and notes; it consults no state and can never fail.  The Except channel
is the rejection channel the route handlers guard with try and catch. -/
def updateAlertStatus (_alertId _status _userId : String)
    (_notes : Option String) : Except String Unit :=
  Except.ok ()

/-- The anomaly kinds accepted by EnergyDataSimulator.generateAnomalousMetric. -/
inductive AnomalyKind where
  | consumption_spike
  | generation_drop
  | storage_drain
deriving DecidableEq, Repr

/-- EnergyDataSimulator.generateAnomalousMetric (storage.ts, lines 220 to
233): perturb one dimension of a normal sample.  The source draws the normal
sample from generateRealisticMetric, a random generator; the drawn sample is
a parameter here. -/
def generateAnomalousMetric (normal : InsertEnergyMetric)
    (anomalyType : AnomalyKind) : InsertEnergyMetric :=
  match anomalyType with
  | AnomalyKind.consumption_spike =>
    { normal with consumption := normal.consumption * 2.5 }
  | AnomalyKind.generation_drop =>
    { normal with generation := normal.generation * 0.3, solarEfficiency := 45 }
  | AnomalyKind.storage_drain =>
    { normal with storage := max 5 (normal.storage * 0.2) }

/-! ## Helper lemmas -/

/-- Every key in the output of the dedup filter avoids the seen set it was
started with. -/
lemma not_mem_seen_of_mem_dedupeByKey (l : List AlertDetectionResult) :
    ∀ (seen : List String) (k : String),
      k ∈ (dedupeByKey seen l).map dedupKey → k ∉ seen := by
  induction l with
  | nil => intro seen k hk; simp [dedupeByKey] at hk
  | cons a rest ih =>
    intro seen k hk
    unfold dedupeByKey at hk
    by_cases h : dedupKey a ∈ seen
    · rw [if_pos h] at hk
      exact ih seen k hk
    · rw [if_neg h] at hk
      simp only [List.map_cons, List.mem_cons] at hk
      rcases hk with rfl | hk
      · exact h
      · intro hs
        exact ih (dedupKey a :: seen) k hk (List.mem_cons_of_mem _ hs)

/-- The dedup filter leaves no repeated keys. -/
lemma nodup_keys_dedupeByKey (l : List AlertDetectionResult) :
    ∀ seen : List String, ((dedupeByKey seen l).map dedupKey).Nodup := by
  induction l with
  | nil => intro seen; simp [dedupeByKey]
  | cons a rest ih =>
    intro seen
    unfold dedupeByKey
    by_cases h : dedupKey a ∈ seen
    · rw [if_pos h]; exact ih seen
    · rw [if_neg h]
      simp only [List.map_cons, List.nodup_cons]
      refine ⟨fun hmem => ?_, ih (dedupKey a :: seen)⟩
      exact not_mem_seen_of_mem_dedupeByKey rest (dedupKey a :: seen) (dedupKey a)
        hmem (List.mem_cons_self _ _)

/-- The dedup filter is the identity on a list whose keys are already
distinct and disjoint from the seen set. -/
lemma dedupeByKey_eq_self (l : List AlertDetectionResult) :
    ∀ seen : List String, (∀ a ∈ l, dedupKey a ∉ seen) →
      (l.map dedupKey).Nodup → dedupeByKey seen l = l := by
  induction l with
  | nil => intro seen _ _; rfl
  | cons a rest ih =>
    intro seen hseen hnd
    have h1 : dedupKey a ∉ seen := hseen a (List.mem_cons_self _ _)
    simp only [List.map_cons, List.nodup_cons] at hnd
    unfold dedupeByKey
    rw [if_neg h1]
    congr 1
    refine ih (dedupKey a :: seen) (fun b hb => ?_) hnd.2
    simp only [List.mem_cons]
    rintro (hkey | hkey)
    · exact hnd.1 (hkey ▸ List.mem_map_of_mem dedupKey hb)
    · exact hseen b (List.mem_cons_of_mem _ hb) hkey

/-- Membership characterisation of the selected channel list: dashboard and
websocket make it in exactly when requested, the severity channels always do,
and nothing else does. -/
lemma mem_determineNotificationChannels (s : AlertSeverity) (req : List String)
    (c : String) :
    c ∈ determineNotificationChannels s req ↔
      (c = "dashboard" ∧ "dashboard" ∈ req)
        ∨ (c = "websocket" ∧ "websocket" ∈ req)
        ∨ c ∈ severityChannels s := by
  cases s <;>
    by_cases hd : "dashboard" ∈ req <;>
      by_cases hw : "websocket" ∈ req <;>
        simp [determineNotificationChannels, severityChannels, hd, hw]

/-- Looking up the key just set returns the value just set. -/
lemma mapGet_mapSet_self (k : String) (v : Alert) (store : AlertStore) :
    mapGet k (mapSet k v store) = some v := by
  induction store with
  | nil => simp [mapSet, mapGet]
  | cons head rest ih =>
    obtain ⟨k₂, v₂⟩ := head
    by_cases h : k₂ = k
    · simp [mapSet, h, mapGet]
    · simp [mapSet, h, mapGet, ih]

/-- Setting one key leaves every other lookup unchanged. -/
lemma mapGet_mapSet_ne (k j : String) (v : Alert) (h : j ≠ k)
    (store : AlertStore) :
    mapGet j (mapSet k v store) = mapGet j store := by
  induction store with
  | nil => simp [mapSet, mapGet, Ne.symm h]
  | cons head rest ih =>
    obtain ⟨k₂, v₂⟩ := head
    by_cases hk : k₂ = k
    · simp [mapSet, hk, mapGet, Ne.symm h]
    · simp [mapSet, hk, mapGet, ih]

/-- Setting a key that is present keeps the key sequence of the store. -/
lemma mapSet_map_fst (k : String) (v : Alert) (store : AlertStore)
    (h : mapGet k store ≠ none) :
    (mapSet k v store).map Prod.fst = store.map Prod.fst := by
  induction store with
  | nil => simp [mapGet] at h
  | cons head rest ih =>
    obtain ⟨k₂, v₂⟩ := head
    by_cases hk : k₂ = k
    · simp [mapSet, hk]
    · have h2 : mapGet k rest ≠ none := by simpa [mapGet, hk] using h
      simp [mapSet, hk, ih h2]

/-! ## Concrete example values used by witnesses -/

/-- A reading violating both the consumption and the storage critical
thresholds at once. -/
def exBoth : EnergyMetric :=
  { id := "m-both", timestamp := 0, consumption := 350, generation := 20,
    storage := 2, gridExport := 0, solarEfficiency := 90, batteryHealth := 95 }

/-- A reading inside every normal band of the rule-based detector. -/
def exNormal : EnergyMetric :=
  { id := "m-normal", timestamp := 0, consumption := 100, generation := 60,
    storage := 50, gridExport := 0, solarEfficiency := 90, batteryHealth := 95 }

/-! ## Claims -/

/-- Claim C1: for every energy reading with consumption above 300 the
rule-based detector returns the anomaly verdict with severity critical,
score 0.95, type consumption and affected component grid_load, whatever the
other fields hold; the full result is the consumption result, so a
simultaneous storage violation is pre-empted (first match wins). -/
theorem detectRuleBasedAnomalies_consumption_critical (m : EnergyMetric)
    (h : m.consumption > 300) :
    detectRuleBasedAnomalies m =
      { isAnomaly := true, score := 0.95, type := some "consumption",
        severity := some AISeverity.critical,
        description := some ("Extreme consumption spike: "
          ++ toFixed1 m.consumption ++ " kW (normal range: 80-250 kW)"),
        affectedComponent := some "grid_load" } := by
  unfold detectRuleBasedAnomalies
  rw [if_pos h]

/-- Witness for C1 at a reading that violates the consumption threshold and
the storage threshold at the same time: only the consumption result comes
back. -/
theorem detectRuleBasedAnomalies_consumption_critical_witness :
    exBoth.consumption > 300 ∧ exBoth.storage < 5 ∧
    detectRuleBasedAnomalies exBoth =
      { isAnomaly := true, score := 0.95, type := some "consumption",
        severity := some AISeverity.critical,
        description := some ("Extreme consumption spike: "
          ++ toFixed1 exBoth.consumption ++ " kW (normal range: 80-250 kW)"),
        affectedComponent := some "grid_load" } :=
  ⟨by norm_num [exBoth], by norm_num [exBoth],
   detectRuleBasedAnomalies_consumption_critical exBoth (by norm_num [exBoth])⟩

/-- Claim C3: when the AI transport call fails (raises) and the preceding
rule-based check on the latest reading found no anomaly, analyzeEnergyPattern
returns the record with isAnomaly false and score 0 and every optional field
absent; it is a total function, so no exception escapes to the caller. -/
theorem analyzeEnergyPattern_fails_closed (e : String)
    (metrics : List EnergyMetric) (latest : EnergyMetric)
    (hlast : metrics.getLast? = some latest)
    (hrule : (detectRuleBasedAnomalies latest).isAnomaly = false) :
    analyzeEnergyPattern (Except.error e) metrics =
      { isAnomaly := false, score := 0, type := none, severity := none,
        description := none, affectedComponent := none } := by
  unfold analyzeEnergyPattern
  rw [hlast]
  simp [hrule, performAIAnalysis, noAnomaly, Except.map]

/-- Witness for C3 at a one-element window whose reading is inside every
rule-based band, with a failing transport call. -/
theorem analyzeEnergyPattern_fails_closed_witness :
    ([exNormal].getLast? = some exNormal) ∧
    (detectRuleBasedAnomalies exNormal).isAnomaly = false ∧
    analyzeEnergyPattern (Except.error "timeout") [exNormal] =
      { isAnomaly := false, score := 0, type := none, severity := none,
        description := none, affectedComponent := none } :=
  ⟨rfl, by decide,
   analyzeEnergyPattern_fails_closed "timeout" [exNormal] exNormal rfl (by decide)⟩

/-- Claim C4: the merge step is idempotent: deduplicating by the composite
key and stable-sorting descending by severity rank a second time returns the
first output unchanged, for every input list. -/
theorem deduplicateAndPrioritizeAlerts_idempotent
    (alerts : List AlertDetectionResult) :
    deduplicateAndPrioritizeAlerts (deduplicateAndPrioritizeAlerts alerts)
      = deduplicateAndPrioritizeAlerts alerts := by
  unfold deduplicateAndPrioritizeAlerts
  have hnd : ((dedupeByKey [] alerts).map dedupKey).Nodup :=
    nodup_keys_dedupeByKey alerts []
  have hperm :
      List.Perm
        ((List.insertionSort sevGE (dedupeByKey [] alerts)).map dedupKey)
        ((dedupeByKey [] alerts).map dedupKey) :=
    (List.perm_insertionSort sevGE (dedupeByKey [] alerts)).map dedupKey
  have hnd2 := hperm.nodup_iff.mpr hnd
  rw [dedupeByKey_eq_self _ [] (fun a _ => List.not_mem_nil _) hnd2]
  exact List.Sorted.insertionSort_eq
    (List.sorted_insertionSort sevGE (dedupeByKey [] alerts))

/-- Counterexample for C5, refuting both failing parts of the claim at
concrete inputs.  With an empty requested-channel list and a critical alert
the selected channels are only the severity-driven ones, so dashboard and
websocket are not always included; and with sms requested on an info alert
the sms channel is dropped, so the selection is not additive to whatever the
caller requested. -/
theorem determineNotificationChannels_counterexample :
    (determineNotificationChannels AlertSeverity.critical []
        = ["email", "sms", "push"] ∧
      "dashboard" ∉ determineNotificationChannels AlertSeverity.critical [] ∧
      "websocket" ∉ determineNotificationChannels AlertSeverity.critical []) ∧
    (determineNotificationChannels AlertSeverity.info
          ["dashboard", "websocket", "sms"]
        = ["dashboard", "websocket", "push"] ∧
      "sms" ∉ determineNotificationChannels AlertSeverity.info
          ["dashboard", "websocket", "sms"]) := by
  decide

/-- Claim C5 (amended): for every severity and every requested-channel list,
the selected channel set contains dashboard exactly when the caller requested
dashboard and websocket exactly when the caller requested websocket; it
always additionally contains email, sms and push for critical, email and push
for warning, and push for info; and it contains nothing else, so requested
channels other than dashboard and websocket are not carried over.  Stated as
a full membership characterisation over all inputs. -/
theorem determineNotificationChannels_severity_driven (s : AlertSeverity)
    (req : List String) (c : String) :
    c ∈ determineNotificationChannels s req ↔
      (c = "dashboard" ∧ "dashboard" ∈ req)
        ∨ (c = "websocket" ∧ "websocket" ∈ req)
        ∨ c ∈ severityChannels s :=
  mem_determineNotificationChannels s req c

/-- Claim C6: for any fixed requested-channel list the selected channel set
grows with severity: every channel selected for info is selected for
warning, and every channel selected for warning is selected for critical. -/
theorem determineNotificationChannels_monotone (req : List String) :
    determineNotificationChannels AlertSeverity.info req
        ⊆ determineNotificationChannels AlertSeverity.warning req ∧
    determineNotificationChannels AlertSeverity.warning req
        ⊆ determineNotificationChannels AlertSeverity.critical req := by
  constructor <;> intro c hc <;>
    rw [mem_determineNotificationChannels] at hc ⊢ <;>
    rcases hc with h | h | h
  · exact Or.inl h
  · exact Or.inr (Or.inl h)
  · refine Or.inr (Or.inr ?_)
    simp only [severityChannels, List.mem_singleton] at h
    simp [severityChannels, h]
  · exact Or.inl h
  · exact Or.inr (Or.inl h)
  · refine Or.inr (Or.inr ?_)
    simp [severityChannels] at h
    rcases h with h | h <;> simp [severityChannels, h]

/-- Witness for C6 on the request list with only dashboard: push is selected
for info and hence also for warning. -/
theorem determineNotificationChannels_monotone_witness :
    "push" ∈ determineNotificationChannels AlertSeverity.info ["dashboard"] ∧
    "push" ∈ determineNotificationChannels AlertSeverity.warning ["dashboard"] :=
  ⟨by decide, (determineNotificationChannels_monotone ["dashboard"]).1 (by decide)⟩

/-- Claim C7: a failing AI pass is caught inside performAIDetection and
contributes no results, and detectAnomalies still returns the merge of the
remaining three passes; the rules, threshold and trend passes are total
functions here, so only the AI analyzer call can fail, and its failure never
aborts the detection call. -/
theorem detectAnomalies_partial_failure (e : String) (rules : List AlertRule)
    (energyMetrics : List EnergyMetric) (sensorData : List SensorData) :
    performAIDetection (Except.error e) = [] ∧
    detectAnomalies (Except.error e) rules energyMetrics sensorData
      = deduplicateAndPrioritizeAlerts
          (performRuleDetection rules energyMetrics sensorData
            ++ performThresholdDetection energyMetrics sensorData
            ++ performPatternAnalysis energyMetrics) :=
  ⟨rfl, rfl⟩

/-- A normal simulator sample used by the C8 witness. -/
def exInsert : InsertEnergyMetric :=
  { consumption := 150, generation := 80, storage := 75, gridExport := 0,
    solarEfficiency := 90, batteryHealth := 97 }

/-- Claim C8: the storage_drain perturbation leaves every field of the normal
sample unchanged except storage, which becomes the maximum of 5 and a fifth
of its normal value: it is never below the 5 percent floor, and whenever the
floor does not bind it equals exactly 20 percent of the normal value. -/
theorem generateAnomalousMetric_storage_drain (normal : InsertEnergyMetric) :
    (generateAnomalousMetric normal AnomalyKind.storage_drain).consumption
        = normal.consumption ∧
    (generateAnomalousMetric normal AnomalyKind.storage_drain).generation
        = normal.generation ∧
    (generateAnomalousMetric normal AnomalyKind.storage_drain).gridExport
        = normal.gridExport ∧
    (generateAnomalousMetric normal AnomalyKind.storage_drain).solarEfficiency
        = normal.solarEfficiency ∧
    (generateAnomalousMetric normal AnomalyKind.storage_drain).batteryHealth
        = normal.batteryHealth ∧
    (generateAnomalousMetric normal AnomalyKind.storage_drain).storage
        = max 5 (normal.storage * 0.2) ∧
    5 ≤ (generateAnomalousMetric normal AnomalyKind.storage_drain).storage ∧
    (5 ≤ normal.storage * 0.2 →
      (generateAnomalousMetric normal AnomalyKind.storage_drain).storage
        = normal.storage * 0.2) :=
  ⟨rfl, rfl, rfl, rfl, rfl, rfl, le_max_left 5 (normal.storage * 0.2),
   fun h => max_eq_right h⟩

/-- Witness for C8 at a sample with storage 75: the floor does not bind and
the result is exactly 15, one fifth of 75. -/
theorem generateAnomalousMetric_storage_drain_witness :
    5 ≤ exInsert.storage * 0.2 ∧
    (generateAnomalousMetric exInsert AnomalyKind.storage_drain).storage
      = exInsert.storage * 0.2 :=
  ⟨by norm_num [exInsert],
   (generateAnomalousMetric_storage_drain exInsert).2.2.2.2.2.2.2
     (by norm_num [exInsert])⟩

/-- Claim C9: with fewer than 10 readings in the window the trend analysis
pass returns no alerts, whatever the readings hold. -/
theorem performPatternAnalysis_small_window (metrics : List EnergyMetric)
    (h : metrics.length < 10) :
    performPatternAnalysis metrics = [] := by
  unfold performPatternAnalysis
  rw [if_pos h]

/-- First reading of the C9 witness window. -/
def exTrendA : EnergyMetric :=
  { id := "m-t1", timestamp := 0, consumption := 100, generation := 60,
    storage := 50, gridExport := 0, solarEfficiency := 90, batteryHealth := 95 }

/-- Second reading of the C9 witness window, with consumption doubled. -/
def exTrendB : EnergyMetric :=
  { id := "m-t2", timestamp := 1, consumption := 200, generation := 60,
    storage := 50, gridExport := 0, solarEfficiency := 90, batteryHealth := 95 }

/-- Witness for C9 on a two-reading window whose first-to-last consumption
rate is 1, far above the 0.1 trigger: the pass still returns nothing. -/
theorem performPatternAnalysis_small_window_witness :
    ([exTrendA, exTrendB] : List EnergyMetric).length < 10 ∧
    (analyzeTrend ([exTrendA, exTrendB].map fun m => m.consumption)).rate
      > 0.1 ∧
    performPatternAnalysis [exTrendA, exTrendB] = [] :=
  ⟨by decide, by norm_num [analyzeTrend, exTrendA, exTrendB],
   performPatternAnalysis_small_window [exTrendA, exTrendB] (by decide)⟩

/-- Claim C10: dismissAlert is a pure frame update: when the id is absent the
store is returned unchanged; lookups of every other id are unchanged; the
looked-up alert changes only in its dismissed and dismissedAt fields (the
record update keeps all other fields); and the key sequence of the store is
preserved, so no alert is ever removed. -/
theorem dismissAlert_frame (now : Time) (id : String) (store : AlertStore) :
    (mapGet id store = none → dismissAlert now id store = store) ∧
    (∀ j, j ≠ id →
      mapGet j (dismissAlert now id store) = mapGet j store) ∧
    (∀ a, mapGet id store = some a →
      mapGet id (dismissAlert now id store)
        = some { a with dismissed := true, dismissedAt := some now }) ∧
    (dismissAlert now id store).map Prod.fst = store.map Prod.fst := by
  cases h : mapGet id store with
  | none =>
    refine ⟨fun _ => ?_, fun j _ => ?_, fun a ha => ?_, ?_⟩
    · simp [dismissAlert, h]
    · simp [dismissAlert, h]
    · simp [h] at ha
    · simp [dismissAlert, h]
  | some alert =>
    have h2 : ∀ j, j ≠ id →
        mapGet j (dismissAlert now id store) = mapGet j store := by
      intro j hj
      simp only [dismissAlert, h]
      exact mapGet_mapSet_ne id j _ hj store
    have h3 : ∀ a, (some alert : Option Alert) = some a →
        mapGet id (dismissAlert now id store)
          = some { a with dismissed := true, dismissedAt := some now } := by
      intro a ha
      obtain rfl : alert = a := Option.some.inj ha
      simp only [dismissAlert, h]
      exact mapGet_mapSet_self id _ store
    have h4 : (dismissAlert now id store).map Prod.fst = store.map Prod.fst := by
      simp only [dismissAlert, h]
      exact mapSet_map_fst id _ store (by simp [h])
    exact ⟨fun hn => by simp at hn, h2, h3, h4⟩

/-- First alert of the C10 witness store. -/
def exAlertA : Alert :=
  { id := "a1", title := "Battery low", description := "d1", type := "warning",
    timestamp := 1, dismissed := false, dismissedAt := none, anomalyId := none }

/-- Second alert of the C10 witness store. -/
def exAlertB : Alert :=
  { id := "a2", title := "Spike", description := "d2", type := "critical",
    timestamp := 2, dismissed := false, dismissedAt := none, anomalyId := none }

/-- The two-alert store of the C10 witness. -/
def exFrameStore : AlertStore := [("a1", exAlertA), ("a2", exAlertB)]

/-- Witness for C10 on a two-alert store: dismissing a1 leaves a2 untouched,
flips only the dismissal fields of a1, and keeps both keys. -/
theorem dismissAlert_frame_witness :
    (("a2" : String) ≠ "a1") ∧
    mapGet "a2" (dismissAlert 5 "a1" exFrameStore) = mapGet "a2" exFrameStore ∧
    mapGet "a1" exFrameStore = some exAlertA ∧
    mapGet "a1" (dismissAlert 5 "a1" exFrameStore)
      = some { exAlertA with dismissed := true, dismissedAt := some 5 } ∧
    (dismissAlert 5 "a1" exFrameStore).map Prod.fst
      = exFrameStore.map Prod.fst :=
  ⟨by decide,
   (dismissAlert_frame 5 "a1" exFrameStore).2.1 "a2" (by decide),
   by decide,
   (dismissAlert_frame 5 "a1" exFrameStore).2.2.1 exAlertA (by decide),
   (dismissAlert_frame 5 "a1" exFrameStore).2.2.2⟩

/-- The single-alert store of the C2 evaluation. -/
def exLifecycleAlert : Alert :=
  { id := "alert-1", title := "Spike", description := "d", type := "critical",
    timestamp := 1, dismissed := false, dismissedAt := none, anomalyId := none }

/-- The store holding the alert the C2 evaluation acts on. -/
def exLifecycleStore : AlertStore := [("alert-1", exLifecycleAlert)]

/-- Claim C2 is violated by the code (code bug): updateAlertStatus, the
helper behind the resolve route, consults no state and returns success for
every call, so a second resolve succeeds exactly like the first; dismissing a
nonexistent id silently returns the store unchanged instead of failing; and
dismissing an already-dismissed alert succeeds again, merely refreshing
dismissedAt.  No lifecycle operation has an error outcome. -/
theorem alertLifecycle_never_fails :
    (∀ (alertId status userId : String) (notes : Option String),
      updateAlertStatus alertId status userId notes = Except.ok ()) ∧
    dismissAlert 7 "ghost" exLifecycleStore = exLifecycleStore ∧
    mapGet "alert-1"
        (dismissAlert 9 "alert-1" (dismissAlert 8 "alert-1" exLifecycleStore))
      = some { exLifecycleAlert with dismissed := true, dismissedAt := some 9 } :=
  ⟨fun _ _ _ _ => rfl, by decide, by decide⟩

end AIEnergyFlow
